import Mathlib

/-!
Formal model of the `personal_manager_backend` service: a shallow embedding of
its data model, CRUD handlers, JWT issuance/verification, the authorization
extractor and the auth flows, together with theorems settling the spec claims.

Conventions of the embedding:
* `DateTime<Utc>` values are modelled as `Int` epoch timestamps (milliseconds
  for entity rows and the date parser; seconds for the JWT code, which calls
  `timestamp()`).
* `f64` money fields are modelled as `Float`; the handlers only store and copy
  them, never compute with them.
* A SQL table is a `List` of rows; `fetch_optional` is `List.find?`,
  `rows_affected` is `List.countP`, an `UPDATE .. SET c = COALESCE(?, c)`
  is a `List.map` applying the merge to matching rows.
* Nondeterministic inputs of the Rust code (`Utc::now()`, `Uuid::new_v4()`)
  are explicit parameters (`now`, `genId`).
* HTTP status codes are `Nat` (404, 401, 400, 409, 500).
-/

/-! ## Account model (src/models/account.rs) -/

inductive AccountType
  | wallet | bank | mobileBanking | cash | investment | savings | creditCard
deriving Repr, DecidableEq

structure Account where
  id : String
  user_id : String
  name : String
  account_type : AccountType
  balance : Float
  currency : String
  credit_limit : Option Float
  created_at : Int
  updated_at : Int
deriving Repr

structure CreateAccountRequest where
  id : Option String
  name : String
  account_type : AccountType
  balance : Float
  currency : Option String
  credit_limit : Option Float
deriving Repr

structure UpdateAccountRequest where
  name : Option String
  account_type : Option AccountType
  balance : Option Float
  currency : Option String
  credit_limit : Option Float
deriving Repr

/-- Embeds `Account::new` (src/models/account.rs:68-81): caller-supplied id or a
generated one, currency defaulting to `"BDT"`, `created_at = updated_at = now`. -/
def Account.new (request : CreateAccountRequest) (user_id : String)
    (now : Int) (genId : String) : Account :=
  { id := request.id.getD genId
    user_id := user_id
    name := request.name
    account_type := request.account_type
    balance := request.balance
    currency := request.currency.getD "BDT"
    credit_limit := request.credit_limit
    created_at := now
    updated_at := now }

/-- The empty partial-update payload: every field omitted. -/
def UpdateAccountRequest.empty : UpdateAccountRequest :=
  { name := none, account_type := none, balance := none, currency := none
    credit_limit := none }

/-! ## Account handlers (src/handlers/account.rs)

`get_account`, `update_account` and `delete_account` take no `AuthUser`
extractor in the source and their SQL filters on `id` alone — they are not
scoped by the authenticated principal.  This is embedded as written. -/

/-- Embeds `create_account` (src/handlers/account.rs:13-55): INSERT of the new row;
a storage error (e.g. duplicate primary key) is surfaced as 500 and leaves
the table unchanged. -/
def create_account (db : List Account) (request : CreateAccountRequest)
    (auth_user_id : String) (now : Int) (genId : String) :
    Except Nat (Account × List Account) :=
  let account := Account.new request auth_user_id now genId
  if db.any (fun r => r.id == account.id) then
    Except.error 500
  else
    Except.ok (account, db ++ [account])

/-- Embeds `get_account` (src/handlers/account.rs:100-143): `SELECT .. WHERE id = ?`
— no `user_id` filter, no authenticated principal in scope. -/
def get_account (db : List Account) (id : String) : Except Nat Account :=
  match db.find? (fun r => r.id == id) with
  | some row => Except.ok row
  | none => Except.error 404

/-- One row of `UPDATE accounts SET name = COALESCE(?, name), ...,
updated_at = ? WHERE id = ?` (src/handlers/account.rs:156-158): each bound
`None` leaves the column as is, each bound `Some v` overwrites it;
`updated_at` is always overwritten. -/
def applyAccountUpdate (request : UpdateAccountRequest) (now : Int)
    (r : Account) : Account :=
  { r with
    name := match request.name with | some v => v | none => r.name
    account_type := match request.account_type with
      | some v => v | none => r.account_type
    balance := match request.balance with | some v => v | none => r.balance
    currency := match request.currency with | some v => v | none => r.currency
    credit_limit := match request.credit_limit with
      | some v => some v | none => r.credit_limit
    updated_at := now }

/-- Embeds `update_account` (src/handlers/account.rs:145-188): COALESCE-merge on the
rows matching `id` (no `user_id` filter); 404 when `rows_affected == 0`. -/
def update_account (db : List Account) (id : String)
    (request : UpdateAccountRequest) (now : Int) :
    Except Nat (List Account) :=
  if db.countP (fun r => r.id == id) = 0 then
    Except.error 404
  else
    Except.ok (db.map (fun r =>
      if r.id == id then applyAccountUpdate request now r else r))

/-- Embeds `delete_account` (src/handlers/account.rs:190-220): `DELETE .. WHERE
id = ?` (no `user_id` filter); 404 when `rows_affected == 0`. -/
def delete_account (db : List Account) (id : String) :
    Except Nat (List Account) :=
  if db.countP (fun r => r.id == id) = 0 then
    Except.error 404
  else
    Except.ok (db.filter (fun r => !(r.id == id)))

/-! ## Transaction model (src/models/transaction.rs)

The `Transaction` row has a `date` and a `created_at` but no `updated_at`
column. -/

inductive TransactionType
  | income | expense | transfer
deriving Repr, DecidableEq

structure Transaction where
  id : String
  user_id : String
  account_id : String
  transaction_type : TransactionType
  amount : Float
  currency : String
  category : Option String
  description : Option String
  date : Int
  created_at : Int
deriving Repr

structure CreateTransactionRequest where
  account_id : String
  transaction_type : TransactionType
  amount : Float
  currency : Option String
  category : Option String
  description : Option String
  date : Option Int
deriving Repr

structure UpdateTransactionRequest where
  account_id : Option String
  transaction_type : Option TransactionType
  amount : Option Float
  currency : Option String
  category : Option String
  description : Option String
  date : Option Int
deriving Repr

/-- Embeds `Transaction::new` (src/models/transaction.rs:114-128): generated id,
currency defaulting to `"BDT"`, `date` defaulting to the creation instant
`now`, `created_at = now`. -/
def Transaction.new (request : CreateTransactionRequest) (user_id : String)
    (now : Int) (genId : String) : Transaction :=
  { id := genId
    user_id := user_id
    account_id := request.account_id
    transaction_type := request.transaction_type
    amount := request.amount
    currency := request.currency.getD "BDT"
    category := request.category
    description := request.description
    date := request.date.getD now
    created_at := now }

/-! ## Transaction handlers (src/handlers/transaction.rs)

All single-row operations here filter by `id AND user_id`, `user_id` being
the authenticated principal from the `AuthUser` extractor. -/

/-- Embeds `create_transaction` (src/handlers/transaction.rs:13-64): INSERT; a
duplicate-id unique-constraint failure is mapped to 409, any other storage
error to 500. -/
def create_transaction (db : List Transaction)
    (request : CreateTransactionRequest) (auth_user_id : String)
    (now : Int) (genId : String) :
    Except Nat (Transaction × List Transaction) :=
  let t := Transaction.new request auth_user_id now genId
  if db.any (fun r => r.id == t.id) then
    Except.error 409
  else
    Except.ok (t, db ++ [t])

/-- Embeds `get_transaction` (src/handlers/transaction.rs:110-158):
`SELECT .. WHERE id = ? AND user_id = ?`; no matching row is 404. -/
def get_transaction (db : List Transaction) (id : String)
    (auth_user_id : String) : Except Nat Transaction :=
  match db.find? (fun r => r.id == id && r.user_id == auth_user_id) with
  | some row => Except.ok row
  | none => Except.error 404

/-- One row of the transaction COALESCE-merge UPDATE
(src/handlers/transaction.rs:172-185).  There is no `updated_at` column to
refresh. -/
def applyTransactionUpdate (request : UpdateTransactionRequest)
    (r : Transaction) : Transaction :=
  { r with
    account_id := match request.account_id with
      | some v => v | none => r.account_id
    transaction_type := match request.transaction_type with
      | some v => v | none => r.transaction_type
    amount := match request.amount with | some v => v | none => r.amount
    currency := match request.currency with | some v => v | none => r.currency
    category := match request.category with
      | some v => some v | none => r.category
    description := match request.description with
      | some v => some v | none => r.description
    date := match request.date with | some v => v | none => r.date }

/-- Embeds `update_transaction` (src/handlers/transaction.rs:160-206): COALESCE-merge
scoped by `id AND user_id`; 404 when `rows_affected == 0`. -/
def update_transaction (db : List Transaction) (id : String)
    (auth_user_id : String) (request : UpdateTransactionRequest) :
    Except Nat (List Transaction) :=
  if db.countP (fun r => r.id == id && r.user_id == auth_user_id) = 0 then
    Except.error 404
  else
    Except.ok (db.map (fun r =>
      if r.id == id && r.user_id == auth_user_id then
        applyTransactionUpdate request r
      else r))

/-- Embeds `delete_transaction` (src/handlers/transaction.rs:208-240):
`DELETE .. WHERE id = ? AND user_id = ?`; 404 when `rows_affected == 0`. -/
def delete_transaction (db : List Transaction) (id : String)
    (auth_user_id : String) : Except Nat (List Transaction) :=
  if db.countP (fun r => r.id == id && r.user_id == auth_user_id) = 0 then
    Except.error 404
  else
    Except.ok (db.filter (fun r => !(r.id == id && r.user_id == auth_user_id)))

/-! ## Savings goal model (src/models/savings_goal.rs) -/

structure SavingsGoal where
  id : String
  user_id : String
  name : String
  target_amount : Float
  current_amount : Float
  currency : String
  target_date : Int
  description : Option String
  account_id : Option String
  priority : String
  is_completed : Bool
  created_at : Int
  updated_at : Int
deriving Repr

structure CreateSavingsGoalRequest where
  id : Option String
  name : String
  target_amount : Float
  currency : Option String
  target_date : Int
  description : Option String
  account_id : Option String
  priority : Option String
deriving Repr

structure UpdateSavingsGoalRequest where
  name : Option String
  target_amount : Option Float
  current_amount : Option Float
  currency : Option String
  target_date : Option Int
  description : Option String
  account_id : Option String
  priority : Option String
  is_completed : Option Bool
deriving Repr

/-- Embeds `SavingsGoal::new` (src/models/savings_goal.rs:57-74): caller-supplied or
generated id, currency defaulting to `"BDT"`, priority defaulting to
`"medium"`, `current_amount = 0.0`, `is_completed = false`,
`created_at = updated_at = now`. -/
def SavingsGoal.new (request : CreateSavingsGoalRequest) (user_id : String)
    (now : Int) (genId : String) : SavingsGoal :=
  { id := request.id.getD genId
    user_id := user_id
    name := request.name
    target_amount := request.target_amount
    current_amount := 0.0
    currency := request.currency.getD "BDT"
    target_date := request.target_date
    description := request.description
    account_id := request.account_id
    priority := request.priority.getD "medium"
    is_completed := false
    created_at := now
    updated_at := now }

/-! ## Savings goal handlers (src/handlers/savings_goal.rs)

All single-row operations filter by `id AND user_id`. -/

/-- Embeds `create_savings_goal` (src/handlers/savings_goal.rs:14-64): INSERT; a
duplicate-id unique-constraint failure is mapped to 409. -/
def create_savings_goal (db : List SavingsGoal)
    (request : CreateSavingsGoalRequest) (auth_user_id : String)
    (now : Int) (genId : String) :
    Except Nat (SavingsGoal × List SavingsGoal) :=
  let goal := SavingsGoal.new request auth_user_id now genId
  if db.any (fun r => r.id == goal.id) then
    Except.error 409
  else
    Except.ok (goal, db ++ [goal])

/-- Embeds `get_savings_goal` (src/handlers/savings_goal.rs:112-156):
`SELECT .. WHERE id = ? AND user_id = ?`. -/
def get_savings_goal (db : List SavingsGoal) (id : String)
    (auth_user_id : String) : Except Nat SavingsGoal :=
  match db.find? (fun r => r.id == id && r.user_id == auth_user_id) with
  | some row => Except.ok row
  | none => Except.error 404

/-- One row of the savings-goal COALESCE-merge UPDATE
(src/handlers/savings_goal.rs:169-171); `updated_at` is always overwritten
with `now`. -/
def applySavingsGoalUpdate (request : UpdateSavingsGoalRequest) (now : Int)
    (r : SavingsGoal) : SavingsGoal :=
  { r with
    name := match request.name with | some v => v | none => r.name
    target_amount := match request.target_amount with
      | some v => v | none => r.target_amount
    current_amount := match request.current_amount with
      | some v => v | none => r.current_amount
    currency := match request.currency with | some v => v | none => r.currency
    target_date := match request.target_date with
      | some v => v | none => r.target_date
    description := match request.description with
      | some v => some v | none => r.description
    account_id := match request.account_id with
      | some v => some v | none => r.account_id
    priority := match request.priority with | some v => v | none => r.priority
    is_completed := match request.is_completed with
      | some v => v | none => r.is_completed
    updated_at := now }

/-- Embeds `update_savings_goal` (src/handlers/savings_goal.rs:158-204):
COALESCE-merge scoped by `id AND user_id`; 404 when `rows_affected == 0`. -/
def update_savings_goal (db : List SavingsGoal) (id : String)
    (auth_user_id : String) (request : UpdateSavingsGoalRequest)
    (now : Int) : Except Nat (List SavingsGoal) :=
  if db.countP (fun r => r.id == id && r.user_id == auth_user_id) = 0 then
    Except.error 404
  else
    Except.ok (db.map (fun r =>
      if r.id == id && r.user_id == auth_user_id then
        applySavingsGoalUpdate request now r
      else r))

/-- Embeds `delete_savings_goal` (src/handlers/savings_goal.rs:206-236):
`DELETE .. WHERE id = ? AND user_id = ?`; 404 when `rows_affected == 0`. -/
def delete_savings_goal (db : List SavingsGoal) (id : String)
    (auth_user_id : String) : Except Nat (List SavingsGoal) :=
  if db.countP (fun r => r.id == id && r.user_id == auth_user_id) = 0 then
    Except.error 404
  else
    Except.ok (db.filter (fun r => !(r.id == id && r.user_id == auth_user_id)))

/-! ## Recurring transaction model (src/models/recurring_transaction.rs) -/

structure RecurringTransaction where
  id : String
  user_id : String
  account_id : String
  transaction_type : String
  amount : Float
  currency : String
  category : Option String
  description : Option String
  frequency : String
  start_date : Int
  end_date : Option Int
  next_due_date : Int
  is_active : Bool
  savings_goal_id : Option String
  created_at : Int
  updated_at : Int
deriving Repr

structure CreateRecurringTransactionRequest where
  id : Option String
  account_id : String
  transaction_type : String
  amount : Float
  currency : Option String
  category : Option String
  description : Option String
  frequency : Option String
  start_date : Int
  end_date : Option Int
  next_due_date : Int
  is_active : Option Bool
  savings_goal_id : Option String
deriving Repr

/-- Embeds `RecurringTransaction::new` (src/models/recurring_transaction.rs:70-90):
caller-supplied or generated id, currency defaulting to `"BDT"`, frequency
defaulting to `"monthly"`, `is_active` defaulting to `true`,
`created_at = updated_at = now`. -/
def RecurringTransaction.new (request : CreateRecurringTransactionRequest)
    (user_id : String) (now : Int) (genId : String) : RecurringTransaction :=
  { id := request.id.getD genId
    user_id := user_id
    account_id := request.account_id
    transaction_type := request.transaction_type
    amount := request.amount
    currency := request.currency.getD "BDT"
    category := request.category
    description := request.description
    frequency := request.frequency.getD "monthly"
    start_date := request.start_date
    end_date := request.end_date
    next_due_date := request.next_due_date
    is_active := request.is_active.getD true
    savings_goal_id := request.savings_goal_id
    created_at := now
    updated_at := now }

/-! ## JWT (src/utils/jwt.rs)

The `jsonwebtoken` calls are embedded at the level the handlers observe:
an encoded token is either unparseable (`malformed`) or a claims set plus an
HS256 signature over it.  The keyed MAC itself is an external primitive; it
is modelled by an explicit function `hmacSha256` of the secret and the
claims, of which the code only ever observes equality. -/

structure Claims where
  sub : String
  exp : Nat
  iat : Nat
deriving Repr, DecidableEq

/-- The compiled-in signing secret (src/utils/jwt.rs:13). -/
def JWT_SECRET : String := "your-secret-key-here-change-in-production"

/-- Stand-in for the HS256 MAC computed by `jsonwebtoken::encode`; the
handlers only compare signatures for equality. -/
def hmacSha256 (secret : String) (c : Claims) : Nat :=
  secret.length * 1000003 + c.sub.length * 7919 + c.exp * 31 + c.iat

/-- A wire token as seen by `jsonwebtoken::decode`: either not a parseable
JWT at all, or a claims set carrying a signature. -/
inductive Token
  | malformed (raw : String)
  | signed (claims : Claims) (sig : Nat)
deriving Repr, DecidableEq

/-- Rust's `as usize` cast of an `i64` timestamp (src/utils/jwt.rs:21-22):
two's-complement reinterpretation, i.e. reduction modulo `2^64`. -/
def asUsize (x : Int) : Nat := (x % (2 : Int) ^ 64).toNat

/-- Embeds `create_jwt` (src/utils/jwt.rs:15-32): claims with subject = the user id,
`iat` = now, `exp` = now + 24 hours, signed with `JWT_SECRET`.  `now` is the
epoch-seconds clock reading (`Utc::now().timestamp()`). -/
def create_jwt (user_id : String) (now : Int) : Token :=
  let expires_at := now + 24 * 3600
  let claims : Claims :=
    { sub := user_id, exp := asUsize expires_at, iat := asUsize now }
  Token.signed claims (hmacSha256 JWT_SECRET claims)

/-- Embeds `verify_jwt` (src/utils/jwt.rs:34-42): `decode` with
`Validation::new(Algorithm::HS256)` fails on an unparseable token, on a
signature that is not the secret-keyed MAC of the claims, and on an `exp`
claim lying before the current time; otherwise it returns the claims. -/
def verify_jwt (t : Token) (now : Int) : Except Unit Claims :=
  match t with
  | Token.malformed _ => Except.error ()
  | Token.signed c s =>
    if s ≠ hmacSha256 JWT_SECRET c then Except.error ()
    else if (c.exp : Int) < now then Except.error ()
    else Except.ok c

/-! ## Authorization extractor (src/middleware/auth.rs)

`AuthUser::from_request_parts` reads the `Authorization` header.  The header
value is a string; the token obtained by stripping the `"Bearer "` prefix is
passed to `verify_jwt`, whose parse of that substring is the `Token`
argument below. -/

structure AuthUser where
  user_id : String
deriving Repr, DecidableEq

/-- Rust's `str::starts_with` (used at src/middleware/auth.rs:36): the
pattern is a prefix of the string. -/
def strStartsWith (s pre : String) : Bool := pre.data.isPrefixOf s.data

/-- Embeds `AuthUser::from_request_parts` (src/middleware/auth.rs:20-61).
`authHeader` is the `Authorization` header when present; `tok` is
`jsonwebtoken`'s parse of `authHeader[7..]` (the text after `"Bearer "`).
Errors are the `(StatusCode, {error: message})` rejections of the source. -/
def from_request_parts (authHeader : Option String) (tok : Token)
    (now : Int) : Except (Nat × String) AuthUser :=
  match authHeader with
  | none => Except.error (401, "Missing Authorization header")
  | some h =>
    if ¬ strStartsWith h "Bearer " then
      Except.error
        (401, "Invalid Authorization header format. Expected: Bearer <token>")
    else
      match verify_jwt tok now with
      | Except.error _ => Except.error (401, "Invalid or expired token")
      | Except.ok claims => Except.ok { user_id := claims.sub }

/-! ## Users and the auth flows (src/models/user.rs, src/handlers/auth.rs)

`bcrypt::hash`/`bcrypt::verify` are external primitives observed only
through the verification oracle: `verify(p, h)` holds exactly when `h` is
the stored hash of `p`.  They are modelled by a deterministic stand-in pair
`bcrypt_hash` / `bcrypt_verify`. -/

structure User where
  id : String
  name : String
  email : String
  password_hash : String
  created_at : Int
  updated_at : Int
deriving Repr, DecidableEq

structure UserResponse where
  id : String
  name : String
  email : String
  created_at : Int
  updated_at : Int
deriving Repr, DecidableEq

structure AuthResponse where
  token : Token
  user : UserResponse
deriving Repr, DecidableEq

def UserResponse.ofUser (u : User) : UserResponse :=
  { id := u.id, name := u.name, email := u.email
    created_at := u.created_at, updated_at := u.updated_at }

/-- Embeds `User::new` (src/models/user.rs:58-68). -/
def User.new (name : String) (email : String) (password_hash : String)
    (now : Int) (genId : String) : User :=
  { id := genId, name := name, email := email
    password_hash := password_hash, created_at := now, updated_at := now }

/-- Stand-in for `bcrypt::hash` (salted slow hash; the handlers never inspect
the hash beyond `bcrypt::verify`). -/
def bcrypt_hash (password : String) : String := "$2b$12$" ++ password

/-- Stand-in for `bcrypt::verify`: succeeds exactly on the stored hash of the
supplied plaintext. -/
def bcrypt_verify (password hash : String) : Bool := hash == bcrypt_hash password

structure LoginRequest where
  email : String
  password : String
deriving Repr, DecidableEq

structure SigninRequest where
  name : Option String
  email : String
  password : String
deriving Repr, DecidableEq

/-- Embeds `login` (src/handlers/auth.rs:131-204): look the email up
(`fetch_optional` = first matching row); an unknown email and a failed
password check both answer 401 with the body
`{"error": "Invalid email or password"}` (modelled by its message). -/
def login (db : List User) (payload : LoginRequest) (now : Int) :
    Except (Nat × String) AuthResponse :=
  match db.find? (fun u => u.email == payload.email) with
  | none => Except.error (401, "Invalid email or password")
  | some user =>
    if ¬ bcrypt_verify payload.password user.password_hash then
      Except.error (401, "Invalid email or password")
    else
      Except.ok { token := create_jwt user.id now
                  user := UserResponse.ofUser user }

/-- Rust's `payload.email.trim().to_lowercase()` (src/handlers/auth.rs:210),
embedded as character-list operations (ASCII case folding). -/
def strTrimLower (s : String) : String :=
  String.mk ((((s.data.dropWhile Char.isWhitespace).reverse.dropWhile
    Char.isWhitespace).reverse).map Char.toLower)

/-- Embeds `signin` (src/handlers/auth.rs:206-345): the combined login-or-register
flow.  The email is trimmed and lowercased; a known email behaves like
`login`; an unknown email registers a new user when the payload carries a
name and fails 400 otherwise.  Returns the handler result together with the
users table after the call. -/
def signin (db : List User) (payload : SigninRequest) (now : Int)
    (genId : String) : Except (Nat × String) AuthResponse × List User :=
  let email := strTrimLower payload.email
  match db.find? (fun u => u.email == email) with
  | some user =>
    if ¬ bcrypt_verify payload.password user.password_hash then
      (Except.error (401, "Invalid email or password"), db)
    else
      (Except.ok { token := create_jwt user.id now
                   user := UserResponse.ofUser user }, db)
  | none =>
    match payload.name with
    | none => (Except.error (400, "Name is required for new user registration"), db)
    | some nm =>
      let user := User.new nm email (bcrypt_hash payload.password) now genId
      (Except.ok { token := create_jwt user.id now
                   user := UserResponse.ofUser user }, db ++ [user])

/-! ## The permissive date parser (src/models/transaction.rs:50-100)

`deserialize_optional_datetime` tries, in order: absence, the empty string,
RFC 3339, an epoch-milliseconds integer, an epoch-seconds integer, a naive
`%Y-%m-%dT%H:%M:%S%.f` datetime, a naive `%Y-%m-%d %H:%M:%S` datetime, and
a bare date completed with `" 00:00:00"`.  Instants are epoch milliseconds.
The chrono pieces (`parse_from_rfc3339`, `parse_from_str`,
`from_timestamp_millis`, `from_timestamp`) are embedded below, including
chrono's representable range (years -262144 to 262143). -/

def digitsToNat (cs : List Char) : Nat :=
  cs.foldl (fun a c => 10 * a + (c.toNat - 48)) 0

def expectChar (c : Char) : List Char → Option (List Char)
  | x :: rest => if x = c then some rest else none
  | [] => none

def takeDigit : List Char → Option (Nat × List Char)
  | x :: rest => if x.isDigit then some (x.toNat - 48, rest) else none
  | [] => none

def take2 (cs : List Char) : Option (Nat × List Char) := do
  let (a, cs) ← takeDigit cs
  let (b, cs) ← takeDigit cs
  pure (10 * a + b, cs)

def take4 (cs : List Char) : Option (Nat × List Char) := do
  let (a, cs) ← take2 cs
  let (b, cs) ← take2 cs
  pure (100 * a + b, cs)

/-- One or more digits, greedily. -/
def takeDigits1 (cs : List Char) : Option (Nat × List Char) :=
  let ds := cs.takeWhile Char.isDigit
  if ds.isEmpty then none
  else some (digitsToNat ds, cs.dropWhile Char.isDigit)

/-- A possibly-signed year number (chrono `%Y` on parse). -/
def takeSignedYear : List Char → Option (Int × List Char)
  | '-' :: rest => (takeDigits1 rest).map (fun p => (-(p.1 : Int), p.2))
  | '+' :: rest => (takeDigits1 rest).map (fun p => ((p.1 : Int), p.2))
  | cs => (takeDigits1 cs).map (fun p => ((p.1 : Int), p.2))

/-- An optional fractional-seconds part: either nothing, or a dot followed by
digits; the first nine digits are significant (nanoseconds). -/
def parseFrac (cs : List Char) : Option (Nat × List Char) :=
  match cs with
  | '.' :: rest =>
    let ds := rest.takeWhile Char.isDigit
    if ds.isEmpty then none
    else some (digitsToNat (ds.take 9) * 10 ^ (9 - min 9 ds.length),
               rest.dropWhile Char.isDigit)
  | _ => some (0, cs)

/-- The RFC 3339 date/time separator: `T`, `t` or a space. -/
def expectSep : List Char → Option (List Char)
  | c :: rest => if c = 'T' ∨ c = 't' ∨ c = ' ' then some rest else none
  | [] => none

/-- The RFC 3339 offset (`Z`/`z` or `±hh:mm`, strictly less than 24 hours),
in milliseconds, consuming the whole remainder. -/
def parseOffset : List Char → Option Int
  | ['Z'] => some 0
  | ['z'] => some 0
  | sign :: h1 :: h2 :: ':' :: m1 :: m2 :: [] =>
    if (sign = '+' ∨ sign = '-') ∧ h1.isDigit ∧ h2.isDigit ∧ m1.isDigit
        ∧ m2.isDigit then
      let hh := digitsToNat [h1, h2]
      let mm := digitsToNat [m1, m2]
      if hh ≤ 23 ∧ mm ≤ 59 then
        let ms : Int := ((hh * 3600 + mm * 60) * 1000 : Nat)
        some (if sign = '+' then ms else -ms)
      else none
    else none
  | _ => none

def isLeapYear (y : Int) : Bool :=
  y % 4 = 0 ∧ (y % 100 ≠ 0 ∨ y % 400 = 0)

def daysInMonth (y : Int) (m : Nat) : Nat :=
  if m = 2 then (if isLeapYear y then 29 else 28)
  else if m = 4 ∨ m = 6 ∨ m = 9 ∨ m = 11 then 30
  else 31

/-- Days since 1970-01-01 of a proleptic Gregorian civil date
(the standard era/year-of-era computation). -/
def daysFromCivil (y : Int) (m d : Nat) : Int :=
  let y' : Int := if m ≤ 2 then y - 1 else y
  let era : Int := Int.tdiv (if 0 ≤ y' then y' else y' - 399) 400
  let yoe : Int := y' - era * 400
  let doy : Int := ((153 * (if 2 < m then m - 3 else m + 9) + 2) / 5 + d - 1 : Nat)
  let doe : Int := yoe * 365 + yoe / 4 - yoe / 100 + doy
  era * 146097 + doe - 719468

/-- chrono's representable year range. -/
def MIN_YEAR : Int := -262144
def MAX_YEAR : Int := 262143

/-- Epoch milliseconds of validated date/time fields (a leap second `ss = 60`
simply extends the minute, as in chrono's timestamp arithmetic). -/
def civilToMillis (y : Int) (mo d hh mi ss nanos : Nat) (offMillis : Int) : Int :=
  daysFromCivil y mo d * 86400000 + ((hh * 3600 + mi * 60 + ss) * 1000 : Nat)
    + (nanos / 1000000 : Nat) - offMillis

def validDate (y : Int) (mo d : Nat) : Prop :=
  MIN_YEAR ≤ y ∧ y ≤ MAX_YEAR ∧ 1 ≤ mo ∧ mo ≤ 12 ∧ 1 ≤ d ∧ d ≤ daysInMonth y mo

instance (y : Int) (mo d : Nat) : Decidable (validDate y mo d) := by
  unfold validDate; infer_instance

def validTime (hh mi ss : Nat) : Prop := hh ≤ 23 ∧ mi ≤ 59 ∧ ss ≤ 60

instance (hh mi ss : Nat) : Decidable (validTime hh mi ss) := by
  unfold validTime; infer_instance

/-- Embeds `DateTime::parse_from_rfc3339(s).map(|dt| dt.with_timezone(&Utc))`, as
epoch milliseconds. -/
def parseRfc3339 (s : String) : Option Int := do
  let (y, cs) ← take4 s.data
  let cs ← expectChar '-' cs
  let (mo, cs) ← take2 cs
  let cs ← expectChar '-' cs
  let (d, cs) ← take2 cs
  let cs ← expectSep cs
  let (hh, cs) ← take2 cs
  let cs ← expectChar ':' cs
  let (mi, cs) ← take2 cs
  let cs ← expectChar ':' cs
  let (ss, cs) ← take2 cs
  let (nanos, cs) ← parseFrac cs
  let offMillis ← parseOffset cs
  if validDate (y : Int) mo d ∧ validTime hh mi ss then
    some (civilToMillis (y : Int) mo d hh mi ss nanos offMillis)
  else none

/-- Embeds `NaiveDateTime::parse_from_str` with a `%Y-%m-%d` date, a literal
separator, `%H:%M:%S` and an optional `%.f` fraction, then `.and_utc()`;
the whole input must be consumed. -/
def parseNaive (sep : Char) (withFrac : Bool) (s : String) : Option Int := do
  let (y, cs) ← takeSignedYear s.data
  let cs ← expectChar '-' cs
  let (mo, cs) ← take2 cs
  let cs ← expectChar '-' cs
  let (d, cs) ← take2 cs
  let cs ← expectChar sep cs
  let (hh, cs) ← take2 cs
  let cs ← expectChar ':' cs
  let (mi, cs) ← take2 cs
  let cs ← expectChar ':' cs
  let (ss, cs) ← take2 cs
  let (nanos, cs) ← if withFrac then parseFrac cs else pure (0, cs)
  if cs = [] ∧ validDate y mo d ∧ validTime hh mi ss then
    some (civilToMillis y mo d hh mi ss nanos 0)
  else none

/-- Embeds `s.parse::<i64>()`: an optional sign, one or more ASCII digits, nothing
else, and the value must fit in an `i64`. -/
def parseI64 (s : String) : Option Int :=
  match s.data with
  | [] => none
  | c :: rest =>
    let signed : Bool × List Char :=
      if c = '+' then (false, rest)
      else if c = '-' then (true, rest)
      else (false, c :: rest)
    match takeDigits1 signed.2 with
    | some (v, []) =>
      let value : Int := if signed.1 then -(v : Int) else (v : Int)
      if -(2 ^ 63) ≤ value ∧ value ≤ 2 ^ 63 - 1 then some value else none
    | _ => none

/-- Embeds `DateTime::from_timestamp_millis`: defined exactly on chrono's
representable range of epoch milliseconds. -/
def fromTimestampMillis (ms : Int) : Option Int :=
  if -8334632851200000 ≤ ms ∧ ms ≤ 8210298412799999 then some ms else none

/-- Embeds `DateTime::from_timestamp(secs, 0)`: defined exactly on chrono's
representable range of epoch seconds. -/
def fromTimestampSecs (secs : Int) : Option Int :=
  if -8334632851200 ≤ secs ∧ secs ≤ 8210298412799 then some (secs * 1000)
  else none

/-- Embeds `deserialize_optional_datetime` (src/models/transaction.rs:50-100). -/
def deserialize_optional_datetime (input : Option String) :
    Except String (Option Int) :=
  match input with
  | none => Except.ok none
  | some s =>
    if s = "" then Except.ok none
    else match parseRfc3339 s with
    | some dt => Except.ok (some dt)
    | none =>
      match (parseI64 s).bind fromTimestampMillis with
      | some dt => Except.ok (some dt)
      | none =>
        match (parseI64 s).bind fromTimestampSecs with
        | some dt => Except.ok (some dt)
        | none =>
          match parseNaive 'T' true s with
          | some dt => Except.ok (some dt)
          | none =>
            match parseNaive ' ' false s with
            | some dt => Except.ok (some dt)
            | none =>
              match parseNaive ' ' false (s ++ " 00:00:00") with
              | some dt => Except.ok (some dt)
              | none => Except.error ("Unable to parse date: " ++ s)

/-! ## Wire-level view of update payloads (serde `Option<T>` fields)

On the wire a JSON object field is absent, an explicit `null`, or a value.
A serde `Option<T>` struct field deserializes both absence and `null` to
`None` — the two are indistinguishable to the handlers. -/

inductive JsonField (α : Type)
  | absent
  | null
  | value (v : α)
deriving Repr, DecidableEq

/-- serde's deserialization of an `Option<T>` struct field. -/
def JsonField.toOption {α : Type} : JsonField α → Option α
  | JsonField.absent => none
  | JsonField.null => none
  | JsonField.value v => some v

structure UpdateTransactionRequestWire where
  account_id : JsonField String
  transaction_type : JsonField TransactionType
  amount : JsonField Float
  currency : JsonField String
  category : JsonField String
  description : JsonField String
  date : JsonField Int
deriving Repr

/-- serde's deserialization of `UpdateTransactionRequest`
(src/models/transaction.rs:102-111). -/
def UpdateTransactionRequest.ofWire (w : UpdateTransactionRequestWire) :
    UpdateTransactionRequest :=
  { account_id := w.account_id.toOption
    transaction_type := w.transaction_type.toOption
    amount := w.amount.toOption
    currency := w.currency.toOption
    category := w.category.toOption
    description := w.description.toOption
    date := w.date.toOption }

structure UpdateSavingsGoalRequestWire where
  name : JsonField String
  target_amount : JsonField Float
  current_amount : JsonField Float
  currency : JsonField String
  target_date : JsonField Int
  description : JsonField String
  account_id : JsonField String
  priority : JsonField String
  is_completed : JsonField Bool
deriving Repr

/-- serde's deserialization of `UpdateSavingsGoalRequest`
(src/models/savings_goal.rs:43-54). -/
def UpdateSavingsGoalRequest.ofWire (w : UpdateSavingsGoalRequestWire) :
    UpdateSavingsGoalRequest :=
  { name := w.name.toOption
    target_amount := w.target_amount.toOption
    current_amount := w.current_amount.toOption
    currency := w.currency.toOption
    target_date := w.target_date.toOption
    description := w.description.toOption
    account_id := w.account_id.toOption
    priority := w.priority.toOption
    is_completed := w.is_completed.toOption }

/-! ## Operation sequences over the accounts table (for the timestamp
invariant): each handler call happens at a clock reading, an error leaves
the table unchanged. -/

inductive AccountOp
  | create (req : CreateAccountRequest) (uid : String) (genId : String)
  | update (id : String) (req : UpdateAccountRequest)
  | delete (id : String)

/-- The accounts-table transformation performed by one handler call at
clock reading `now`. -/
def stepAccount (db : List Account) (op : AccountOp) (now : Int) :
    List Account :=
  match op with
  | AccountOp.create req uid genId =>
    match create_account db req uid now genId with
    | Except.ok (_, db') => db'
    | Except.error _ => db
  | AccountOp.update id req =>
    match update_account db id req now with
    | Except.ok db' => db'
    | Except.error _ => db
  | AccountOp.delete id =>
    match delete_account db id with
    | Except.ok db' => db'
    | Except.error _ => db

/-- Run a list of timestamped handler calls. -/
def runAccountOps (db : List Account) :
    List (AccountOp × Int) → List Account
  | [] => db
  | (op, t) :: rest => runAccountOps (stepAccount db op t) rest

/-- The claimed invariant: no stored row was updated before it was created. -/
def AccountInv (db : List Account) : Prop :=
  ∀ r ∈ db, r.created_at ≤ r.updated_at

/-- All stored timestamps lie at or before the clock reading `t`. -/
def AccountBound (db : List Account) (t : Int) : Prop :=
  ∀ r ∈ db, r.created_at ≤ t ∧ r.updated_at ≤ t

/-- The clock readings of a timestamped call list never move backwards,
starting from `t0`. -/
def Chronological (t0 : Int) : List (AccountOp × Int) → Prop
  | [] => True
  | (_, t) :: rest => t0 ≤ t ∧ Chronological t rest

/-! ## Concrete fixtures for witnesses and counterexamples -/

/-- A stored user (password `"correct-horse"`). -/
def userCarol : User :=
  { id := "u-carol", name := "Carol", email := "carol@example.com"
    password_hash := bcrypt_hash "correct-horse", created_at := 0
    updated_at := 0 }

/-- A stored account owned by principal `"alice"`. -/
def acctAlice : Account :=
  { id := "acct-1", user_id := "alice", name := "Wallet"
    account_type := AccountType.cash, balance := 100.0, currency := "BDT"
    credit_limit := none, created_at := 0, updated_at := 0 }

/-- A stored savings goal owned by principal `"alice"`. -/
def goalGrace : SavingsGoal :=
  { id := "goal-1", user_id := "alice", name := "Trip"
    target_amount := 5000.0, current_amount := 0.0, currency := "BDT"
    target_date := 100, description := some "beach fund", account_id := none
    priority := "medium", is_completed := false, created_at := 0
    updated_at := 0 }

/-- A stored transaction owned by principal `"alice"`, with a description. -/
def txAlice : Transaction :=
  { id := "tx-1", user_id := "alice", account_id := "acct-1"
    transaction_type := TransactionType.expense, amount := 12.5
    currency := "BDT", category := some "Food", description := some "lunch"
    date := 50, created_at := 50 }

/-- A wire update payload whose `description` field is an explicit JSON
`null` and whose other fields are absent. -/
def wireNullDescription : UpdateTransactionRequestWire :=
  { account_id := JsonField.absent, transaction_type := JsonField.absent
    amount := JsonField.absent, currency := JsonField.absent
    category := JsonField.absent, description := JsonField.null
    date := JsonField.absent }

/-! ## Theorems -/

theorem asUsize_eq_toNat {x : Int} (h0 : 0 ≤ x) (hlt : x < (2 : Int) ^ 64) :
    asUsize x = x.toNat := by
  unfold asUsize
  rw [Int.emod_eq_of_lt h0 hlt]

/-- C5: `create_jwt` issues a token whose subject is the user id, whose
`iat` is the issuance time and whose `exp` is exactly 24 hours later,
signed with the server secret; `verify_jwt` rejects a malformed token, a
token whose signature is not the secret-keyed MAC of its claims, and a
token whose expiry lies before the current time — the last even when the
signature is valid. -/
theorem c5_jwt_claims_and_rejection :
    (∀ (uid : String) (now : Int), 0 ≤ now → now + 86400 < (2 : Int) ^ 64 →
      create_jwt uid now =
        Token.signed
          { sub := uid, exp := now.toNat + 86400, iat := now.toNat }
          (hmacSha256 JWT_SECRET
            { sub := uid, exp := now.toNat + 86400, iat := now.toNat })) ∧
    (∀ (raw : String) (now : Int),
      verify_jwt (Token.malformed raw) now = Except.error ()) ∧
    (∀ (c : Claims) (sig : Nat) (now : Int), sig ≠ hmacSha256 JWT_SECRET c →
      verify_jwt (Token.signed c sig) now = Except.error ()) ∧
    (∀ (c : Claims) (now : Int), (c.exp : Int) < now →
      verify_jwt (Token.signed c (hmacSha256 JWT_SECRET c)) now =
        Except.error ()) := by
  refine ⟨?_, ?_, ?_, ?_⟩
  · intro uid now h0 hlt
    have h1 : asUsize now = now.toNat :=
      asUsize_eq_toNat h0 (by omega)
    have h2 : asUsize (now + 24 * 3600) = now.toNat + 86400 := by
      rw [asUsize_eq_toNat (by omega) (by omega)]
      omega
    simp only [create_jwt, h1, h2]
  · intro raw now
    rfl
  · intro c sig now hsig
    simp only [verify_jwt, if_pos hsig]
  · intro c now hexp
    have : ¬ hmacSha256 JWT_SECRET c ≠ hmacSha256 JWT_SECRET c := by simp
    simp only [verify_jwt, if_neg this, if_pos hexp]

/-- Closed instance of `c5_jwt_claims_and_rejection`. -/
theorem c5_jwt_witness :
    create_jwt "u1" 1000 =
      Token.signed
        { sub := "u1", exp := 87400, iat := 1000 }
        (hmacSha256 JWT_SECRET { sub := "u1", exp := 87400, iat := 1000 }) ∧
    verify_jwt (Token.malformed "zzz") 0 = Except.error () ∧
    verify_jwt
      (Token.signed { sub := "u1", exp := 0, iat := 0 }
        (hmacSha256 JWT_SECRET { sub := "u1", exp := 0, iat := 0 } + 1)) 0 =
      Except.error () ∧
    verify_jwt
      (Token.signed { sub := "u1", exp := 5, iat := 0 }
        (hmacSha256 JWT_SECRET { sub := "u1", exp := 5, iat := 0 })) 6 =
      Except.error () := by
  refine ⟨?_, ?_, ?_, ?_⟩
  · exact c5_jwt_claims_and_rejection.1 "u1" 1000 (by decide) (by decide)
  · exact c5_jwt_claims_and_rejection.2.1 "zzz" 0
  · exact c5_jwt_claims_and_rejection.2.2.1 _ _ 0 (Nat.succ_ne_self _)
  · exact c5_jwt_claims_and_rejection.2.2.2 _ 6 (by decide)

/-- C6: the authorization extractor answers 401 on a missing `Authorization`
header, 401 on a header not of the `Bearer <token>` scheme, 401 when token
verification fails, and otherwise yields exactly the verified token's
subject claim as the authenticated principal. -/
theorem c6_auth_extractor_cases :
    (∀ (tok : Token) (now : Int),
      from_request_parts none tok now =
        Except.error (401, "Missing Authorization header")) ∧
    (∀ (h : String) (tok : Token) (now : Int),
      strStartsWith h "Bearer " = false →
      from_request_parts (some h) tok now =
        Except.error
          (401, "Invalid Authorization header format. Expected: Bearer <token>")) ∧
    (∀ (h : String) (tok : Token) (now : Int),
      strStartsWith h "Bearer " = true →
      verify_jwt tok now = Except.error () →
      from_request_parts (some h) tok now =
        Except.error (401, "Invalid or expired token")) ∧
    (∀ (h : String) (tok : Token) (now : Int) (c : Claims),
      strStartsWith h "Bearer " = true →
      verify_jwt tok now = Except.ok c →
      from_request_parts (some h) tok now = Except.ok { user_id := c.sub }) := by
  refine ⟨?_, ?_, ?_, ?_⟩
  · intro tok now
    rfl
  · intro h tok now hb
    simp [from_request_parts, hb]
  · intro h tok now hb hv
    simp [from_request_parts, hb, hv]
  · intro h tok now c hb hv
    simp [from_request_parts, hb, hv]

/-- Closed instance of `c6_auth_extractor_cases`. -/
theorem c6_auth_extractor_witness :
    from_request_parts none (Token.malformed "x") 0 =
      Except.error (401, "Missing Authorization header") ∧
    from_request_parts (some "Token abc") (Token.malformed "x") 0 =
      Except.error
        (401, "Invalid Authorization header format. Expected: Bearer <token>") ∧
    from_request_parts (some "Bearer abc") (Token.malformed "abc") 0 =
      Except.error (401, "Invalid or expired token") ∧
    from_request_parts (some "Bearer abc") (create_jwt "u7" 0) 0 =
      Except.ok { user_id := "u7" } := by
  refine ⟨?_, ?_, ?_, ?_⟩
  · exact c6_auth_extractor_cases.1 _ 0
  · exact c6_auth_extractor_cases.2.1 _ _ 0 (by decide)
  · exact c6_auth_extractor_cases.2.2.1 _ _ 0 (by decide) rfl
  · exact c6_auth_extractor_cases.2.2.2 _ _ 0
      { sub := "u7", exp := asUsize 86400, iat := asUsize 0 } (by decide) rfl

/-- C8: a login with an email matching no stored user and a login with a
known email but a non-matching password both fail 401 with the very same
error body, so the two failure causes are indistinguishable to the caller. -/
theorem c8_login_uniform_error :
    ∀ (db1 : List User) (p1 : LoginRequest) (now1 : Int)
      (db2 : List User) (p2 : LoginRequest) (now2 : Int) (u : User),
      db1.find? (fun v => v.email == p1.email) = none →
      db2.find? (fun v => v.email == p2.email) = some u →
      bcrypt_verify p2.password u.password_hash = false →
      login db1 p1 now1 = Except.error (401, "Invalid email or password") ∧
      login db2 p2 now2 = Except.error (401, "Invalid email or password") ∧
      login db1 p1 now1 = login db2 p2 now2 := by
  intro db1 p1 now1 db2 p2 now2 u h1 h2 hv
  have e1 : login db1 p1 now1 = Except.error (401, "Invalid email or password") := by
    simp [login, h1]
  have e2 : login db2 p2 now2 = Except.error (401, "Invalid email or password") := by
    simp [login, h2, hv]
  exact ⟨e1, e2, e1.trans e2.symm⟩

/-- Closed instance of `c8_login_uniform_error`: unknown email on an empty
table versus wrong password for a stored user. -/
theorem c8_login_uniform_error_witness :
    login [] { email := "nobody@example.com", password := "pw" } 0 =
      Except.error (401, "Invalid email or password") ∧
    login [userCarol] { email := "carol@example.com", password := "wrong" } 0 =
      Except.error (401, "Invalid email or password") ∧
    login [] { email := "nobody@example.com", password := "pw" } 0 =
      login [userCarol] { email := "carol@example.com", password := "wrong" } 0 := by
  exact c8_login_uniform_error []
    { email := "nobody@example.com", password := "pw" } 0
    [userCarol] { email := "carol@example.com", password := "wrong" } 0
    userCarol rfl rfl (by decide)

/-- C9: every field supplied in a create payload is stored as supplied, every
omitted optional field takes its documented default (account currency
`"BDT"`, savings-goal priority `"medium"`, recurring-transaction frequency
`"monthly"`), `created_at = updated_at` at creation, and a created savings
goal is readable back unchanged via `get` on its id by its owner. -/
theorem c9_create_defaults_roundtrip :
    (∀ (req : CreateAccountRequest) (uid : String) (now : Int) (gid : String),
      (Account.new req uid now gid).id = req.id.getD gid ∧
      (Account.new req uid now gid).user_id = uid ∧
      (Account.new req uid now gid).name = req.name ∧
      (Account.new req uid now gid).account_type = req.account_type ∧
      (Account.new req uid now gid).balance = req.balance ∧
      (Account.new req uid now gid).currency = req.currency.getD "BDT" ∧
      (Account.new req uid now gid).credit_limit = req.credit_limit ∧
      (Account.new req uid now gid).created_at = now ∧
      (Account.new req uid now gid).updated_at =
        (Account.new req uid now gid).created_at) ∧
    (∀ (req : CreateSavingsGoalRequest) (uid : String) (now : Int) (gid : String),
      (SavingsGoal.new req uid now gid).id = req.id.getD gid ∧
      (SavingsGoal.new req uid now gid).user_id = uid ∧
      (SavingsGoal.new req uid now gid).name = req.name ∧
      (SavingsGoal.new req uid now gid).target_amount = req.target_amount ∧
      (SavingsGoal.new req uid now gid).current_amount = 0.0 ∧
      (SavingsGoal.new req uid now gid).currency = req.currency.getD "BDT" ∧
      (SavingsGoal.new req uid now gid).target_date = req.target_date ∧
      (SavingsGoal.new req uid now gid).description = req.description ∧
      (SavingsGoal.new req uid now gid).account_id = req.account_id ∧
      (SavingsGoal.new req uid now gid).priority = req.priority.getD "medium" ∧
      (SavingsGoal.new req uid now gid).is_completed = false ∧
      (SavingsGoal.new req uid now gid).created_at = now ∧
      (SavingsGoal.new req uid now gid).updated_at =
        (SavingsGoal.new req uid now gid).created_at) ∧
    (∀ (req : CreateRecurringTransactionRequest) (uid : String) (now : Int)
        (gid : String),
      (RecurringTransaction.new req uid now gid).frequency =
        req.frequency.getD "monthly" ∧
      (RecurringTransaction.new req uid now gid).currency =
        req.currency.getD "BDT" ∧
      (RecurringTransaction.new req uid now gid).is_active =
        req.is_active.getD true ∧
      (RecurringTransaction.new req uid now gid).created_at = now ∧
      (RecurringTransaction.new req uid now gid).updated_at =
        (RecurringTransaction.new req uid now gid).created_at) ∧
    (∀ (db : List SavingsGoal) (req : CreateSavingsGoalRequest) (uid : String)
        (now : Int) (gid : String) (g : SavingsGoal) (db' : List SavingsGoal),
      (∀ r ∈ db, r.id ≠ (SavingsGoal.new req uid now gid).id) →
      create_savings_goal db req uid now gid = Except.ok (g, db') →
      g = SavingsGoal.new req uid now gid ∧
      get_savings_goal db' g.id uid = Except.ok g) := by
  refine ⟨?_, ?_, ?_, ?_⟩
  · intro req uid now gid
    refine ⟨rfl, rfl, rfl, rfl, rfl, rfl, rfl, rfl, rfl⟩
  · intro req uid now gid
    refine ⟨rfl, rfl, rfl, rfl, rfl, rfl, rfl, rfl, rfl, rfl, rfl, rfl, rfl⟩
  · intro req uid now gid
    refine ⟨rfl, rfl, rfl, rfl, rfl⟩
  · intro db req uid now gid g db' hfresh hok
    have hany : db.any (fun r => r.id == (SavingsGoal.new req uid now gid).id) = false := by
      rw [List.any_eq_false]
      intro r hr
      simpa using hfresh r hr
    rw [create_savings_goal, hany] at hok
    simp only [Bool.false_eq_true, if_false, Except.ok.injEq, Prod.mk.injEq] at hok
    obtain ⟨hg, hdb⟩ := hok
    subst hg
    subst hdb
    refine ⟨rfl, ?_⟩
    unfold get_savings_goal
    rw [List.find?_append]
    have hnone : db.find? (fun r =>
        r.id == (SavingsGoal.new req uid now gid).id && r.user_id == uid) = none := by
      rw [List.find?_eq_none]
      intro r hr
      have := hfresh r hr
      simp [this]
    rw [hnone]
    have huser : (SavingsGoal.new req uid now gid).user_id = uid := rfl
    simp [List.find?, huser]

/-- Closed instance of `c9_create_defaults_roundtrip`: create with omitted
currency and priority on an empty table, then read the goal back. -/
theorem c9_create_defaults_roundtrip_witness :
    create_savings_goal []
      { id := some "g1", name := "Trip", target_amount := 5000.0
        currency := none, target_date := 100, description := none
        account_id := none, priority := none } "alice" 7 "gen-1" =
      Except.ok (SavingsGoal.new
        { id := some "g1", name := "Trip", target_amount := 5000.0
          currency := none, target_date := 100, description := none
          account_id := none, priority := none } "alice" 7 "gen-1",
        [SavingsGoal.new
          { id := some "g1", name := "Trip", target_amount := 5000.0
            currency := none, target_date := 100, description := none
            account_id := none, priority := none } "alice" 7 "gen-1"]) ∧
    get_savings_goal
      [SavingsGoal.new
        { id := some "g1", name := "Trip", target_amount := 5000.0
          currency := none, target_date := 100, description := none
          account_id := none, priority := none } "alice" 7 "gen-1"] "g1" "alice" =
      Except.ok (SavingsGoal.new
        { id := some "g1", name := "Trip", target_amount := 5000.0
          currency := none, target_date := 100, description := none
          account_id := none, priority := none } "alice" 7 "gen-1") := by
  have h := c9_create_defaults_roundtrip.2.2.2 []
    { id := some "g1", name := "Trip", target_amount := 5000.0
      currency := none, target_date := 100, description := none
      account_id := none, priority := none } "alice" 7 "gen-1"
    (SavingsGoal.new
      { id := some "g1", name := "Trip", target_amount := 5000.0
        currency := none, target_date := 100, description := none
        account_id := none, priority := none } "alice" 7 "gen-1")
    [SavingsGoal.new
      { id := some "g1", name := "Trip", target_amount := 5000.0
        currency := none, target_date := 100, description := none
        account_id := none, priority := none } "alice" 7 "gen-1"]
    (by intro r hr; cases hr) rfl
  exact ⟨rfl, h.2⟩

theorem create_jwt_verifies (uid : String) (now : Int) (h0 : 0 ≤ now)
    (hlt : now + 86400 < (2 : Int) ^ 64) :
    verify_jwt (create_jwt uid now) now =
      Except.ok { sub := uid, exp := now.toNat + 86400, iat := now.toNat } := by
  have h1 : asUsize now = now.toNat := asUsize_eq_toNat h0 (by omega)
  have h2 : asUsize (now + 24 * 3600) = now.toNat + 86400 := by
    rw [asUsize_eq_toNat (by omega) (by omega)]
    omega
  simp only [create_jwt, h1, h2, verify_jwt]
  rw [if_neg (not_ne_iff.mpr rfl), if_neg (by push_cast; omega)]

/-- C7: the combined signin flow registers exactly one new user and returns
a token for it when the (normalized) email is unknown and a name is
supplied; fails 400 when the email is unknown and no name is supplied;
returns a token for the stored user without adding any row when the email
is known and the password matches; and fails 401 when the email is known
and the password does not match. -/
theorem c7_signin_flow :
    (∀ (db : List User) (p : SigninRequest) (now : Int) (gid nm : String),
      (∀ u ∈ db, u.email ≠ strTrimLower p.email) →
      p.name = some nm →
      signin db p now gid =
        (Except.ok
          { token := create_jwt gid now
            user := UserResponse.ofUser
              (User.new nm (strTrimLower p.email) (bcrypt_hash p.password)
                now gid) },
         db ++ [User.new nm (strTrimLower p.email) (bcrypt_hash p.password)
                  now gid]) ∧
      (0 ≤ now → now + 86400 < (2 : Int) ^ 64 →
        verify_jwt (create_jwt gid now) now =
          Except.ok { sub := gid, exp := now.toNat + 86400, iat := now.toNat })) ∧
    (∀ (db : List User) (p : SigninRequest) (now : Int) (gid : String),
      (∀ u ∈ db, u.email ≠ strTrimLower p.email) →
      p.name = none →
      signin db p now gid =
        (Except.error (400, "Name is required for new user registration"), db)) ∧
    (∀ (db : List User) (p : SigninRequest) (now : Int) (gid : String) (u : User),
      db.find? (fun v => v.email == strTrimLower p.email) = some u →
      bcrypt_verify p.password u.password_hash = true →
      signin db p now gid =
        (Except.ok { token := create_jwt u.id now
                     user := UserResponse.ofUser u }, db)) ∧
    (∀ (db : List User) (p : SigninRequest) (now : Int) (gid : String) (u : User),
      db.find? (fun v => v.email == strTrimLower p.email) = some u →
      bcrypt_verify p.password u.password_hash = false →
      signin db p now gid =
        (Except.error (401, "Invalid email or password"), db)) := by
  refine ⟨?_, ?_, ?_, ?_⟩
  · intro db p now gid nm hunk hname
    have hfind : db.find? (fun v => v.email == strTrimLower p.email) = none := by
      rw [List.find?_eq_none]
      intro u hu
      simpa using hunk u hu
    refine ⟨by simp [signin, hfind, hname, User.new], ?_⟩
    intro h0 hlt
    exact create_jwt_verifies gid now h0 hlt
  · intro db p now gid hunk hname
    have hfind : db.find? (fun v => v.email == strTrimLower p.email) = none := by
      rw [List.find?_eq_none]
      intro u hu
      simpa using hunk u hu
    simp [signin, hfind, hname]
  · intro db p now gid u hfind hv
    simp [signin, hfind, hv]
  · intro db p now gid u hfind hv
    simp [signin, hfind, hv]

/-- Closed instance of `c7_signin_flow`: registration with a name, the 400
branch without a name, and the two known-email branches for `userCarol`. -/
theorem c7_signin_flow_witness :
    signin [] { name := some "Noor", email := " New@Example.com "
                password := "pw1" } 9 "gen-7" =
      (Except.ok
        { token := create_jwt "gen-7" 9
          user := UserResponse.ofUser
            (User.new "Noor" (strTrimLower " New@Example.com ")
              (bcrypt_hash "pw1") 9 "gen-7") },
       [User.new "Noor" (strTrimLower " New@Example.com ")
          (bcrypt_hash "pw1") 9 "gen-7"]) ∧
    signin [] { name := none, email := "new@example.com"
                password := "pw1" } 9 "gen-7" =
      (Except.error (400, "Name is required for new user registration"), []) ∧
    signin [userCarol] { name := none, email := "carol@example.com"
                         password := "correct-horse" } 9 "gen-7" =
      (Except.ok { token := create_jwt "u-carol" 9
                   user := UserResponse.ofUser userCarol }, [userCarol]) ∧
    signin [userCarol] { name := none, email := "carol@example.com"
                         password := "wrong" } 9 "gen-7" =
      (Except.error (401, "Invalid email or password"), [userCarol]) := by
  refine ⟨?_, ?_, ?_, ?_⟩
  · exact (c7_signin_flow.1 []
      { name := some "Noor", email := " New@Example.com ", password := "pw1" }
      9 "gen-7" "Noor" (by intro u hu; cases hu) rfl).1
  · exact c7_signin_flow.2.1 []
      { name := none, email := "new@example.com", password := "pw1" }
      9 "gen-7" (by intro u hu; cases hu) rfl
  · exact c7_signin_flow.2.2.1 [userCarol]
      { name := none, email := "carol@example.com", password := "correct-horse" }
      9 "gen-7" userCarol (by decide) (by decide)
  · exact c7_signin_flow.2.2.2 [userCarol]
      { name := none, email := "carol@example.com", password := "wrong" }
      9 "gen-7" userCarol (by decide) (by decide)

theorem applyAccountUpdate_eq (req : UpdateAccountRequest) (now : Int)
    (r : Account) :
    applyAccountUpdate req now r =
      { id := r.id, user_id := r.user_id
        name := req.name.getD r.name
        account_type := req.account_type.getD r.account_type
        balance := req.balance.getD r.balance
        currency := req.currency.getD r.currency
        credit_limit := req.credit_limit.or r.credit_limit
        created_at := r.created_at
        updated_at := now } := by
  unfold applyAccountUpdate
  cases req.name <;> cases req.account_type <;> cases req.balance <;>
    cases req.currency <;> cases req.credit_limit <;> rfl

theorem applySavingsGoalUpdate_eq (req : UpdateSavingsGoalRequest)
    (now : Int) (r : SavingsGoal) :
    applySavingsGoalUpdate req now r =
      { id := r.id, user_id := r.user_id
        name := req.name.getD r.name
        target_amount := req.target_amount.getD r.target_amount
        current_amount := req.current_amount.getD r.current_amount
        currency := req.currency.getD r.currency
        target_date := req.target_date.getD r.target_date
        description := req.description.or r.description
        account_id := req.account_id.or r.account_id
        priority := req.priority.getD r.priority
        is_completed := req.is_completed.getD r.is_completed
        created_at := r.created_at
        updated_at := now } := by
  unfold applySavingsGoalUpdate
  cases req.name <;> cases req.target_amount <;> cases req.current_amount <;>
    cases req.currency <;> cases req.target_date <;> cases req.description <;>
    cases req.account_id <;> cases req.priority <;> cases req.is_completed <;>
    rfl

/-- C2: when a row matching the update's scope exists, the update succeeds
and rewrites the table so that a scoped row takes exactly the supplied
payload fields, keeps every omitted business field at its prior stored
value (`created_at`, `id` and owner included), and every other row is
untouched; with the all-omitted payload this holds too (only `updated_at`
moves), so the no-field update succeeds without error. -/
theorem c2_update_merges_only_supplied_fields :
    (∀ (db : List Account) (id : String) (req : UpdateAccountRequest)
        (now : Int),
      (∃ r ∈ db, r.id = id) →
      update_account db id req now = Except.ok (db.map (fun r =>
        if r.id = id then
          { id := r.id, user_id := r.user_id
            name := req.name.getD r.name
            account_type := req.account_type.getD r.account_type
            balance := req.balance.getD r.balance
            currency := req.currency.getD r.currency
            credit_limit := req.credit_limit.or r.credit_limit
            created_at := r.created_at
            updated_at := now }
        else r))) ∧
    (∀ (db : List SavingsGoal) (id uid : String)
        (req : UpdateSavingsGoalRequest) (now : Int),
      (∃ r ∈ db, r.id = id ∧ r.user_id = uid) →
      update_savings_goal db id uid req now = Except.ok (db.map (fun r =>
        if r.id = id ∧ r.user_id = uid then
          { id := r.id, user_id := r.user_id
            name := req.name.getD r.name
            target_amount := req.target_amount.getD r.target_amount
            current_amount := req.current_amount.getD r.current_amount
            currency := req.currency.getD r.currency
            target_date := req.target_date.getD r.target_date
            description := req.description.or r.description
            account_id := req.account_id.or r.account_id
            priority := req.priority.getD r.priority
            is_completed := req.is_completed.getD r.is_completed
            created_at := r.created_at
            updated_at := now }
        else r))) := by
  constructor
  · rintro db id req now ⟨r0, hr0, hid0⟩
    have hcnt : db.countP (fun r => r.id == id) ≠ 0 := by
      intro h
      have := List.countP_eq_zero.mp h r0 hr0
      simp [hid0] at this
    unfold update_account
    rw [if_neg hcnt]
    refine congrArg Except.ok (List.map_congr_left ?_)
    intro r _
    by_cases h : r.id = id
    · simp [h, applyAccountUpdate_eq]
    · simp [h]
  · rintro db id uid req now ⟨r0, hr0, hid0, huid0⟩
    have hcnt : db.countP (fun r => r.id == id && r.user_id == uid) ≠ 0 := by
      intro h
      have := List.countP_eq_zero.mp h r0 hr0
      simp [hid0, huid0] at this
    unfold update_savings_goal
    rw [if_neg hcnt]
    refine congrArg Except.ok (List.map_congr_left ?_)
    intro r _
    by_cases h1 : r.id = id
    · by_cases h2 : r.user_id = uid
      · simp [h1, h2, applySavingsGoalUpdate_eq]
      · simp [h1, h2]
    · simp [h1]

/-- Closed instance of `c2_update_merges_only_supplied_fields`: a
balance-only update of `acctAlice` and the all-omitted update of
`goalGrace`. -/
theorem c2_update_merge_witness :
    update_account [acctAlice] "acct-1"
      { name := none, account_type := none, balance := some 50.0
        currency := none, credit_limit := none } 7 =
      Except.ok ([acctAlice].map (fun r =>
        if r.id = "acct-1" then
          { id := r.id, user_id := r.user_id
            name := (none : Option String).getD r.name
            account_type := (none : Option AccountType).getD r.account_type
            balance := (some (50.0 : Float)).getD r.balance
            currency := (none : Option String).getD r.currency
            credit_limit := (none : Option Float).or r.credit_limit
            created_at := r.created_at
            updated_at := 7 }
        else r)) ∧
    update_savings_goal [goalGrace] "goal-1" "alice"
      { name := none, target_amount := none, current_amount := none
        currency := none, target_date := none, description := none
        account_id := none, priority := none, is_completed := none } 7 =
      Except.ok ([goalGrace].map (fun r =>
        if r.id = "goal-1" ∧ r.user_id = "alice" then
          { id := r.id, user_id := r.user_id
            name := (none : Option String).getD r.name
            target_amount := (none : Option Float).getD r.target_amount
            current_amount := (none : Option Float).getD r.current_amount
            currency := (none : Option String).getD r.currency
            target_date := (none : Option Int).getD r.target_date
            description := (none : Option String).or r.description
            account_id := (none : Option String).or r.account_id
            priority := (none : Option String).getD r.priority
            is_completed := (none : Option Bool).getD r.is_completed
            created_at := r.created_at
            updated_at := 7 }
        else r)) := by
  constructor
  · exact c2_update_merges_only_supplied_fields.1 [acctAlice] "acct-1"
      { name := none, account_type := none, balance := some 50.0
        currency := none, credit_limit := none } 7
      ⟨acctAlice, List.mem_singleton.mpr rfl, rfl⟩
  · exact c2_update_merges_only_supplied_fields.2 [goalGrace] "goal-1" "alice"
      { name := none, target_amount := none, current_amount := none
        currency := none, target_date := none, description := none
        account_id := none, priority := none, is_completed := none } 7
      ⟨goalGrace, List.mem_singleton.mpr rfl, rfl, rfl⟩

/-- C1: the claim fails on the account handlers.  `get_account`,
`update_account` and `delete_account` take no authenticated principal at
all and filter on the entity id alone, so for `acctAlice` owned by
`"alice"` a request issued by any other principal succeeds (reads,
rewrites, deletes the row) instead of failing `NotFound`; the transaction
handlers, by contrast, do scope by `id AND user_id` and answer 404 to every
principal other than the owner. -/
theorem c1_account_handlers_not_principal_scoped :
    acctAlice.user_id = "alice" ∧
    get_account [acctAlice] "acct-1" = Except.ok acctAlice ∧
    update_account [acctAlice] "acct-1" UpdateAccountRequest.empty 5 =
      Except.ok [{ acctAlice with updated_at := 5 }] ∧
    delete_account [acctAlice] "acct-1" = Except.ok [] ∧
    (∀ principal : String, principal ≠ "alice" →
      get_transaction [txAlice] "tx-1" principal = Except.error 404 ∧
      update_transaction [txAlice] "tx-1" principal
        { account_id := none, transaction_type := none, amount := none
          currency := none, category := none, description := none
          date := none } = Except.error 404 ∧
      delete_transaction [txAlice] "tx-1" principal = Except.error 404) := by
  refine ⟨rfl, rfl, ?_, rfl, ?_⟩
  · unfold update_account
    rw [if_neg (by decide)]
    refine congrArg Except.ok ?_
    show [applyAccountUpdate UpdateAccountRequest.empty 5 acctAlice] = _
    rw [applyAccountUpdate_eq]
    rfl
  · intro principal hp
    have hfalse : (txAlice.id == "tx-1" && txAlice.user_id == principal) = false := by
      simp [txAlice, Ne.symm hp]
    refine ⟨?_, ?_, ?_⟩
    · unfold get_transaction
      rw [show ([txAlice].find? (fun r =>
          r.id == "tx-1" && r.user_id == principal)) = none from by
        simp [List.find?, hfalse]]
    · unfold update_transaction
      rw [if_pos (by simp [List.countP, List.countP.go, hfalse])]
    · unfold delete_transaction
      rw [if_pos (by simp [List.countP, List.countP.go, hfalse])]

/-- Closed instance of `c1_account_handlers_not_principal_scoped`: principal
`"bob"` reads `acctAlice` successfully yet gets 404 on alice's transaction. -/
theorem c1_account_handlers_witness :
    get_account [acctAlice] "acct-1" = Except.ok acctAlice ∧
    get_transaction [txAlice] "tx-1" "bob" = Except.error 404 ∧
    update_transaction [txAlice] "tx-1" "bob"
      { account_id := none, transaction_type := none, amount := none
        currency := none, category := none, description := none
        date := none } = Except.error 404 ∧
    delete_transaction [txAlice] "tx-1" "bob" = Except.error 404 := by
  have h := c1_account_handlers_not_principal_scoped
  have hb := h.2.2.2.2 "bob" (by decide)
  exact ⟨h.2.1, hb.1, hb.2.1, hb.2.2⟩

/-- C4 counterexample: an update payload carrying an explicit JSON `null`
for `description` does NOT clear the stored value.  serde deserializes the
`null` to `None` and the `COALESCE(NULL, description)` merge keeps the
prior value, so `txAlice`'s description stays `some "lunch"` — the claim's
"explicit null clears the stored value to null" is false at this input. -/
theorem c4_null_does_not_clear_counterexample :
    wireNullDescription.description = JsonField.null ∧
    txAlice.description = some "lunch" ∧
    update_transaction [txAlice] "tx-1" "alice"
      (UpdateTransactionRequest.ofWire wireNullDescription) =
      Except.ok [txAlice] := by
  refine ⟨rfl, rfl, ?_⟩
  unfold update_transaction
  rw [if_neg (by decide)]
  rfl

/-- C4 as amended: in an update payload an explicit JSON `null` for a
nullable field (description, account linkage) deserializes exactly like
omitting the field, and in both cases the update leaves the stored value
unchanged in every row; no update payload can clear a nullable field. -/
theorem c4_null_treated_as_absent :
    (∀ w : UpdateTransactionRequestWire,
      UpdateTransactionRequest.ofWire { w with description := JsonField.null } =
        UpdateTransactionRequest.ofWire { w with description := JsonField.absent }) ∧
    (∀ w : UpdateSavingsGoalRequestWire,
      UpdateSavingsGoalRequest.ofWire { w with description := JsonField.null } =
        UpdateSavingsGoalRequest.ofWire { w with description := JsonField.absent } ∧
      UpdateSavingsGoalRequest.ofWire { w with account_id := JsonField.null } =
        UpdateSavingsGoalRequest.ofWire { w with account_id := JsonField.absent }) ∧
    (∀ (db : List Transaction) (id uid : String)
        (w : UpdateTransactionRequestWire) (db' : List Transaction),
      (w.description = JsonField.null ∨ w.description = JsonField.absent) →
      update_transaction db id uid (UpdateTransactionRequest.ofWire w) =
        Except.ok db' →
      db'.map Transaction.description = db.map Transaction.description) ∧
    (∀ (db : List SavingsGoal) (id uid : String)
        (w : UpdateSavingsGoalRequestWire) (now : Int) (db' : List SavingsGoal),
      (w.account_id = JsonField.null ∨ w.account_id = JsonField.absent) →
      update_savings_goal db id uid (UpdateSavingsGoalRequest.ofWire w) now =
        Except.ok db' →
      db'.map SavingsGoal.account_id = db.map SavingsGoal.account_id) := by
  refine ⟨?_, ?_, ?_, ?_⟩
  · intro w
    rfl
  · intro w
    exact ⟨rfl, rfl⟩
  · intro db id uid w db' hnull hok
    have hdesc : (UpdateTransactionRequest.ofWire w).description = none := by
      rcases hnull with h | h <;>
        simp [UpdateTransactionRequest.ofWire, h, JsonField.toOption]
    unfold update_transaction at hok
    by_cases hcnt : db.countP (fun r => r.id == id && r.user_id == uid) = 0
    · rw [if_pos hcnt] at hok
      cases hok
    · rw [if_neg hcnt] at hok
      cases hok
      rw [List.map_map]
      refine List.map_congr_left ?_
      intro r _
      simp only [Function.comp]
      by_cases h : (r.id == id && r.user_id == uid) = true
      · rw [if_pos h]
        simp [applyTransactionUpdate, hdesc]
      · rw [if_neg h]
  · intro db id uid w now db' hnull hok
    have hacct : (UpdateSavingsGoalRequest.ofWire w).account_id = none := by
      rcases hnull with h | h <;>
        simp [UpdateSavingsGoalRequest.ofWire, h, JsonField.toOption]
    unfold update_savings_goal at hok
    by_cases hcnt : db.countP (fun r => r.id == id && r.user_id == uid) = 0
    · rw [if_pos hcnt] at hok
      cases hok
    · rw [if_neg hcnt] at hok
      cases hok
      rw [List.map_map]
      refine List.map_congr_left ?_
      intro r _
      simp only [Function.comp]
      by_cases h : (r.id == id && r.user_id == uid) = true
      · rw [if_pos h]
        simp [applySavingsGoalUpdate, hacct]
      · rw [if_neg h]

/-- Closed instance of `c4_null_treated_as_absent` at `wireNullDescription`
on `txAlice`'s table. -/
theorem c4_null_treated_as_absent_witness :
    UpdateTransactionRequest.ofWire
        { wireNullDescription with description := JsonField.null } =
      UpdateTransactionRequest.ofWire
        { wireNullDescription with description := JsonField.absent } ∧
    [applyTransactionUpdate
        (UpdateTransactionRequest.ofWire wireNullDescription) txAlice].map
      Transaction.description = [txAlice].map Transaction.description := by
  constructor
  · exact c4_null_treated_as_absent.1 wireNullDescription
  · have h := c4_null_treated_as_absent.2.2.1 [txAlice] "tx-1" "alice"
      wireNullDescription
      [applyTransactionUpdate
        (UpdateTransactionRequest.ofWire wireNullDescription) txAlice]
      (Or.inl rfl) ?_
    · exact h
    · unfold update_transaction
      rw [if_neg (by decide)]
      rfl

theorem stepAccount_preserves (db : List Account) (op : AccountOp)
    (t0 t : Int) (hinv : AccountInv db) (hbd : AccountBound db t0)
    (ht : t0 ≤ t) :
    AccountInv (stepAccount db op t) ∧ AccountBound (stepAccount db op t) t := by
  have hbd' : AccountBound db t := fun r hr =>
    ⟨(hbd r hr).1.trans ht, (hbd r hr).2.trans ht⟩
  cases op with
  | create req uid genId =>
    cases hany : db.any (fun r => r.id == (Account.new req uid t genId).id) with
    | true =>
      simp only [stepAccount, create_account, hany]
      exact ⟨hinv, hbd'⟩
    | false =>
      simp only [stepAccount, create_account, hany]
      constructor
      · intro r hr
        rcases List.mem_append.mp hr with h | h
        · exact hinv r h
        · rw [List.mem_singleton.mp h]
          exact le_refl t
      · intro r hr
        rcases List.mem_append.mp hr with h | h
        · exact hbd' r h
        · rw [List.mem_singleton.mp h]
          exact ⟨le_refl t, le_refl t⟩
  | update id req =>
    by_cases hcnt : db.countP (fun r => r.id == id) = 0
    · simp only [stepAccount, update_account, if_pos hcnt]
      exact ⟨hinv, hbd'⟩
    · simp only [stepAccount, update_account, if_neg hcnt]
      constructor
      · intro r' hr'
        rcases List.mem_map.mp hr' with ⟨r, hr, rfl⟩
        by_cases h : (r.id == id) = true
        · rw [if_pos h]
          show (applyAccountUpdate req t r).created_at ≤
            (applyAccountUpdate req t r).updated_at
          rw [applyAccountUpdate_eq]
          exact (hbd' r hr).1
        · rw [if_neg h]
          exact hinv r hr
      · intro r' hr'
        rcases List.mem_map.mp hr' with ⟨r, hr, rfl⟩
        by_cases h : (r.id == id) = true
        · rw [if_pos h]
          rw [applyAccountUpdate_eq]
          exact ⟨(hbd' r hr).1, le_refl t⟩
        · rw [if_neg h]
          exact hbd' r hr
  | delete id =>
    by_cases hcnt : db.countP (fun r => r.id == id) = 0
    · simp only [stepAccount, delete_account, if_pos hcnt]
      exact ⟨hinv, hbd'⟩
    · simp only [stepAccount, delete_account, if_neg hcnt]
      constructor
      · intro r hr
        exact hinv r (List.mem_of_mem_filter hr)
      · intro r hr
        exact hbd' r (List.mem_of_mem_filter hr)

theorem runAccountOps_inv (ops : List (AccountOp × Int)) :
    ∀ (db : List Account) (t0 : Int), AccountInv db → AccountBound db t0 →
      Chronological t0 ops → AccountInv (runAccountOps db ops) := by
  induction ops with
  | nil =>
    intro db t0 h _ _
    exact h
  | cons p rest ih =>
    rcases p with ⟨op, t⟩
    intro db t0 hinv hbd hchr
    obtain ⟨ht, hrest⟩ := hchr
    obtain ⟨hinv', hbd'⟩ := stepAccount_preserves db op t0 t hinv hbd ht
    exact ih (stepAccount db op t) t hinv' hbd' hrest

/-- C3: every successful account or savings-goal update stamps the matched
row's `updated_at` with the call's current time — also when the payload
supplies no field — and over any chronologically clocked sequence of
create/update/delete calls starting from a table satisfying it, the
invariant `created_at ≤ updated_at` holds of every stored row. -/
theorem c3_updated_at_refresh_and_invariant :
    (∀ (db : List Account) (id : String) (req : UpdateAccountRequest)
        (now : Int) (db' : List Account),
      update_account db id req now = Except.ok db' →
      ∀ r' ∈ db', r'.id = id → r'.updated_at = now) ∧
    (∀ (db : List SavingsGoal) (id uid : String)
        (req : UpdateSavingsGoalRequest) (now : Int) (db' : List SavingsGoal),
      update_savings_goal db id uid req now = Except.ok db' →
      ∀ r' ∈ db', r'.id = id → r'.user_id = uid → r'.updated_at = now) ∧
    (∀ (db : List Account) (t0 : Int) (ops : List (AccountOp × Int)),
      AccountInv db → AccountBound db t0 → Chronological t0 ops →
      AccountInv (runAccountOps db ops)) := by
  refine ⟨?_, ?_, ?_⟩
  · intro db id req now db' hok r' hr' hid'
    unfold update_account at hok
    by_cases hcnt : db.countP (fun r => r.id == id) = 0
    · rw [if_pos hcnt] at hok
      cases hok
    · rw [if_neg hcnt] at hok
      cases hok
      rcases List.mem_map.mp hr' with ⟨r, hr, rfl⟩
      by_cases h : (r.id == id) = true
      · rw [if_pos h, applyAccountUpdate_eq]
      · rw [if_neg h] at hid' ⊢
        exact absurd (by simp [hid']) h
  · intro db id uid req now db' hok r' hr' hid' huid'
    unfold update_savings_goal at hok
    by_cases hcnt : db.countP (fun r => r.id == id && r.user_id == uid) = 0
    · rw [if_pos hcnt] at hok
      cases hok
    · rw [if_neg hcnt] at hok
      cases hok
      rcases List.mem_map.mp hr' with ⟨r, hr, rfl⟩
      by_cases h : (r.id == id && r.user_id == uid) = true
      · rw [if_pos h, applySavingsGoalUpdate_eq]
      · rw [if_neg h] at hid' huid' ⊢
        exact absurd (by simp [hid', huid']) h
  · intro db t0 ops hinv hbd hchr
    exact runAccountOps_inv ops db t0 hinv hbd hchr

/-- Closed instance of `c3_updated_at_refresh_and_invariant`: the no-field
update of `acctAlice` at time 5, and a create-update-delete trace from the
empty table. -/
theorem c3_updated_at_witness :
    (∀ r' ∈ [{ acctAlice with updated_at := 5 }], r'.id = "acct-1" →
      r'.updated_at = 5) ∧
    AccountInv (runAccountOps []
      [(AccountOp.create
          { id := some "acct-1", name := "Wallet"
            account_type := AccountType.cash, balance := 100.0
            currency := none, credit_limit := none } "alice" "g1", 1),
       (AccountOp.update "acct-1" UpdateAccountRequest.empty, 2),
       (AccountOp.delete "acct-9", 3)]) := by
  constructor
  · refine c3_updated_at_refresh_and_invariant.1 [acctAlice] "acct-1"
      UpdateAccountRequest.empty 5 _ ?_
    unfold update_account
    rw [if_neg (by decide)]
    refine congrArg Except.ok ?_
    show [applyAccountUpdate UpdateAccountRequest.empty 5 acctAlice] = _
    rw [applyAccountUpdate_eq]
    rfl
  · refine c3_updated_at_refresh_and_invariant.2.2 [] 0 _ ?_ ?_ ?_
    · intro r hr
      cases hr
    · intro r hr
      cases hr
    · exact ⟨by decide, by decide, by decide, trivial⟩

theorem takeDigit_rest (l : List Char) (a : Nat) (cs : List Char)
    (h : takeDigit l = some (a, cs)) : cs = l.drop 1 := by
  rcases l with _ | ⟨x, rest⟩
  · simp [takeDigit] at h
  · by_cases hx : x.isDigit = true
    · rw [takeDigit, if_pos hx] at h
      cases h
      rfl
    · rw [takeDigit, if_neg hx] at h
      cases h

theorem take2_rest (l : List Char) (a : Nat) (cs : List Char)
    (h : take2 l = some (a, cs)) : cs = l.drop 2 := by
  unfold take2 at h
  cases h1 : takeDigit l with
  | none =>
    rw [h1] at h
    cases h
  | some p1 =>
    obtain ⟨d1, r1⟩ := p1
    rw [h1] at h
    simp only [Option.bind_eq_bind, Option.some_bind] at h
    cases h2 : takeDigit r1 with
    | none =>
      rw [h2] at h
      cases h
    | some p2 =>
      obtain ⟨d2, r2⟩ := p2
      rw [h2] at h
      simp only [Option.bind_eq_bind, Option.some_bind] at h
      cases h
      rw [takeDigit_rest r1 d2 _ h2, takeDigit_rest l d1 r1 h1,
        List.drop_drop]

theorem take4_rest (l : List Char) (a : Nat) (cs : List Char)
    (h : take4 l = some (a, cs)) : cs = l.drop 4 := by
  unfold take4 at h
  cases h1 : take2 l with
  | none =>
    rw [h1] at h
    cases h
  | some p1 =>
    obtain ⟨d1, r1⟩ := p1
    rw [h1] at h
    simp only [Option.bind_eq_bind, Option.some_bind] at h
    cases h2 : take2 r1 with
    | none =>
      rw [h2] at h
      cases h
    | some p2 =>
      obtain ⟨d2, r2⟩ := p2
      rw [h2] at h
      simp only [Option.bind_eq_bind, Option.some_bind] at h
      cases h
      rw [take2_rest r1 d2 _ h2, take2_rest l d1 r1 h1, List.drop_drop]

theorem parseRfc3339_none_of_all_digits (s : String)
    (hall : ∀ x ∈ s.data, x.isDigit = true) : parseRfc3339 s = none := by
  cases htake : take4 s.data with
  | none =>
    unfold parseRfc3339
    rw [htake]
    rfl
  | some p =>
    obtain ⟨y, cs⟩ := p
    have hcs : ∀ x ∈ cs, x.isDigit = true := by
      intro x hx
      rw [take4_rest s.data y cs htake] at hx
      exact hall x (List.mem_of_mem_drop hx)
    have hexp : expectChar '-' cs = none := by
      rcases cs with _ | ⟨e, rest⟩
      · rfl
      · have he := hcs e (by simp)
        have hne : e ≠ '-' := by
          intro hcon
          rw [hcon] at he
          exact absurd he (by decide)
        simp [expectChar, hne]
    unfold parseRfc3339
    rw [htake]
    simp only [Option.bind_eq_bind, Option.some_bind]
    rw [hexp]
    rfl

theorem parseRfc3339_eq_none_of_parseI64 (s : String) (n : Int)
    (h : parseI64 s = some n) : parseRfc3339 s = none := by
  rcases hdl : s.data with _ | ⟨c, rest⟩
  · unfold parseI64 at h
    rw [hdl] at h
    exact Option.noConfusion h
  · by_cases hplus : c = '+'
    · subst hplus
      have ht4 : take4 s.data = none := by
        rw [hdl]
        simp [take4, take2, takeDigit, show ('+').isDigit = false from by decide]
      unfold parseRfc3339
      rw [ht4]
      rfl
    · by_cases hminus : c = '-'
      · subst hminus
        have ht4 : take4 s.data = none := by
          rw [hdl]
          simp [take4, take2, takeDigit,
            show ('-').isDigit = false from by decide]
        unfold parseRfc3339
        rw [ht4]
        rfl
      · have hall : ∀ x ∈ s.data, x.isDigit = true := by
          unfold parseI64 at h
          rw [hdl] at h
          simp only [if_neg hplus, if_neg hminus] at h
          cases htd : takeDigits1 (c :: rest) with
          | none =>
            rw [htd] at h
            exact Option.noConfusion h
          | some p =>
            obtain ⟨v, rem⟩ := p
            rw [htd] at h
            cases rem with
            | nil =>
              unfold takeDigits1 at htd
              by_cases hemp : ((c :: rest).takeWhile Char.isDigit).isEmpty = true
              · rw [if_pos hemp] at htd
                exact Option.noConfusion htd
              · rw [if_neg hemp] at htd
                have hdw : (c :: rest).dropWhile Char.isDigit = [] := by
                  injection htd with htd'
                  injection htd' with h1 h2
                intro x hx
                rw [hdl] at hx
                exact List.dropWhile_eq_nil_iff.mp hdw x hx
            | cons e rest2 =>
              exact Option.noConfusion h
        exact parseRfc3339_none_of_all_digits s hall

/-- C10: the permissive date parser maps the empty string to absence (and a
transaction created without a date takes the creation time); every string
that parses as a 64-bit integer whose epoch-milliseconds conversion
succeeds (i.e. lies in chrono's representable millisecond range) is read as
epoch milliseconds — the seconds reading is only a later fallback — so the
ten-digit epoch-seconds-looking string `"1700000000"` is read as
milliseconds, not seconds. -/
theorem c10_permissive_date_parsing :
    deserialize_optional_datetime (some "") = Except.ok none ∧
    (∀ (req : CreateTransactionRequest) (uid : String) (now : Int)
        (gid : String), req.date = none →
      (Transaction.new req uid now gid).date = now) ∧
    (∀ (s : String) (n : Int), parseI64 s = some n →
      -8334632851200000 ≤ n → n ≤ 8210298412799999 →
      deserialize_optional_datetime (some s) = Except.ok (some n)) ∧
    deserialize_optional_datetime (some "1700000000") =
      Except.ok (some 1700000000) := by
  refine ⟨rfl, ?_, ?_, rfl⟩
  · intro req uid now gid hdate
    simp [Transaction.new, hdate]
  · intro s n hparse hlo hhi
    have hne : ¬(s = "") := by
      intro he
      subst he
      exact Option.noConfusion hparse
    have hrfc := parseRfc3339_eq_none_of_parseI64 s n hparse
    have hmil : (parseI64 s).bind fromTimestampMillis = some n := by
      rw [hparse]
      simp only [Option.some_bind, fromTimestampMillis]
      rw [if_pos ⟨hlo, hhi⟩]
    simp only [deserialize_optional_datetime]
    rw [if_neg hne, hrfc, hmil]

/-- Closed instance of `c10_permissive_date_parsing`'s integer branch at a
thirteen-digit epoch-milliseconds string. -/
theorem c10_permissive_date_parsing_witness :
    deserialize_optional_datetime (some "1700000000000") =
      Except.ok (some 1700000000000) ∧
    (Transaction.new
      { account_id := "acct-1", transaction_type := TransactionType.expense
        amount := 1.0, currency := none, category := none
        description := none, date := none } "alice" 77 "tx-9").date = 77 := by
  constructor
  · exact c10_permissive_date_parsing.2.2.1 "1700000000000" 1700000000000
      (by decide) (by decide) (by decide)
  · exact c10_permissive_date_parsing.2.1
      { account_id := "acct-1", transaction_type := TransactionType.expense
        amount := 1.0, currency := none, category := none
        description := none, date := none } "alice" 77 "tx-9" rfl
